import Mathlib

/-!
Verification of the legacy-alert → unified-alerting migration
(`pkg/services/sqlstore/migrations/ualert`): a shallow embedding of
`AddMigration`, `migration.Exec` and `rmMigration.Exec`, with the store
session modelled as an explicit state (tables as lists) and every store
interaction recorded in a trace.  Helper routines whose source files are
not part of this corpus (`transConditions`, `createFolder`, `getACL`,
`setACL`, `getOrCreateGeneralFolder`, `makeAlertRule`, `getMigrationString`)
are modelled from the specification and marked as such.
-/

namespace Ualert

/-- `const GENERAL_FOLDER = "General Alerting"`. -/
def GENERAL_FOLDER : String := "General Alerting"

/-- `const DASHBOARD_FOLDER = "Migrated %s"`, applied to the migration string. -/
def DASHBOARD_FOLDER (s : String) : String := "Migrated " ++ s

/-- `const FOLDER_CREATED_BY = -8`: creator marker for folders created by the
migration, used during cleanup. -/
def FOLDER_CREATED_BY : Int := -8

/-- `var migTitle = "move dashboard alerts to unified alerting"`. -/
def migTitle : String := "move dashboard alerts to unified alerting"

/-- `var rmMigTitle = "remove unified alerting data"`. -/
def rmMigTitle : String := "remove unified alerting data"

/-- Underlying causes of migration failures.  Each constructor corresponds to
one `fmt.Errorf` site of `migration.Exec` or to the failure of a modelled
collaborator (condition translation, rule insert). -/
inductive Err where
  | unresolvedDatasource (orgId dsId : Int)
  | dashboardNotFound (uid : String) (orgId : Int)
  | folderNotFound (folderId : Int)
  | notAFolder (folderId : Int)
  | emptyFolderUid
  | uniqueConstraint
deriving Repr, DecidableEq

/-- `type MigrationError struct { AlertId int64; Err error }`. -/
structure MigrationError where
  alertId : Int
  err : Err
deriving Repr, DecidableEq

/-- `func (e *MigrationError) Unwrap() error { return e.Err }`. -/
def MigrationError.unwrap (e : MigrationError) : Err := e.err

/-- An error escaping `migration.Exec`: either wrapped in a `MigrationError`
(the `return MigrationError{...}` sites) or returned as-is (the bare
`return err` sites at lines 99-101, 205-207 and 211-214). -/
inductive ExecError where
  | migrationError (e : MigrationError)
  | raw (e : Err)
deriving Repr, DecidableEq

/-- Whether an escaping error is wrapped in a `MigrationError`. -/
def ExecError.isMigrationError : ExecError → Bool
  | .migrationError _ => true
  | .raw _ => false

/-- A row of the `dashboard` table (dashboards and folders alike), with the
fields `migration.Exec` reads: `Id`, `OrgId`, `Uid`, `Title`, `FolderId`,
`HasAcl`, `IsFolder`, `CreatedBy`. -/
structure dashboard where
  id : Int
  orgId : Int
  uid : String
  title : String
  folderId : Int
  hasAcl : Bool
  isFolder : Bool
  createdBy : Int
deriving Repr, DecidableEq

/-- The Go zero value `dashboard{}`, the value of `folder` before the switch
assigns it. -/
def dashboard.empty : dashboard :=
  { id := 0, orgId := 0, uid := "", title := "", folderId := 0,
    hasAcl := false, isFolder := false, createdBy := 0 }

/-- A row of the `dashboard_acl` table: a (principal, permission) grant on a
dashboard or folder. -/
structure aclRow where
  orgId : Int
  dashboardId : Int
  principal : Int
  permission : Int
deriving Repr, DecidableEq

/-- One operand of a legacy alert condition: a datasource reference plus an
opaque payload (query, evaluator, operator) that translation preserves. -/
structure dsOperand where
  datasourceId : Int
  payload : String
deriving Repr, DecidableEq

/-- The parsed `settings` blob of a legacy alert: the ordered list of its
condition operands. -/
structure dashAlertSettings where
  conditions : List dsOperand
deriving Repr, DecidableEq

/-- A legacy alert row as slurped by `slurpDashAlerts`, including the
`DashboardUID` field that `Exec` fills in from the dashboard-id map. -/
structure dashAlert where
  id : Int
  orgId : Int
  dashboardId : Int
  panelId : Int
  name : String
  parsedSettings : dashAlertSettings
  dashboardUID : String
deriving Repr, DecidableEq

/-- One operand of a translated condition: datasource UID plus the preserved
payload. -/
structure condOperand where
  datasourceUid : String
  payload : String
deriving Repr, DecidableEq

/-- A translated condition, operand order preserved. -/
structure condition where
  operands : List condOperand
deriving Repr, DecidableEq

/-- A row of the `alert_rule` table with the fields the migration sets. -/
structure alertRule where
  orgId : Int
  uid : String
  title : String
  ruleGroup : String
  namespaceUid : String
  cond : condition
deriving Repr, DecidableEq

/-- A row of the `alert_rule_version` table: a snapshot of an `alertRule`. -/
structure alertRuleVersion where
  ruleOrgId : Int
  ruleUid : String
  title : String
  ruleGroup : String
  namespaceUid : String
  cond : condition
deriving Repr, DecidableEq

/-- `rule.makeVersion()`: the version snapshot of a rule. -/
def alertRule.makeVersion (r : alertRule) : alertRuleVersion :=
  { ruleOrgId := r.orgId, ruleUid := r.uid, title := r.title,
    ruleGroup := r.ruleGroup, namespaceUid := r.namespaceUid, cond := r.cond }

/-- The store state for one migration run: the tables the forward and the
rollback migrations touch, plus a fresh-id counter for created folders. -/
structure MigState where
  dashboards : List dashboard
  acl : List aclRow
  alertRules : List alertRule
  alertRuleVersions : List alertRuleVersion
  alertConfigurations : List Int
  alertInstances : List Int
  nextFolderId : Int
deriving Repr, DecidableEq

/-- Lookup in a `[orgId, id] -> UID` map (`dsIDMap` / `dashIDMap`). -/
def lookup2 (m : List ((Int × Int) × String)) (a b : Int) : Option String :=
  (m.find? (fun p => p.1.1 == a && p.1.2 == b)).map (fun p => p.2)

/-- Modelled from the spec: `transConditions` operand traversal (§4.2; its
source file is not part of this corpus).  Each operand's datasource id is
mapped through the datasource lookup, preserving operand order and payload;
a missing mapping fails with an unresolved-datasource error. -/
def transOperands (orgId : Int) (dsIDMap : List ((Int × Int) × String)) :
    List dsOperand → Except Err (List condOperand)
  | [] => .ok []
  | o :: rest =>
    match lookup2 dsIDMap orgId o.datasourceId with
    | none => .error (.unresolvedDatasource orgId o.datasourceId)
    | some uid =>
      match transOperands orgId dsIDMap rest with
      | .error e => .error e
      | .ok cs => .ok ({ datasourceUid := uid, payload := o.payload } :: cs)

/-- Modelled from the spec: `transConditions(set, orgId, dsIDMap)` (§4.2).
Pure and deterministic; its error carries no alert id (the alert id is not
among its arguments). -/
def transConditions (set : dashAlertSettings) (orgId : Int)
    (dsIDMap : List ((Int × Int) × String)) : Except Err condition :=
  match transOperands orgId dsIDMap set.conditions with
  | .error e => .error e
  | .ok ops => .ok { operands := ops }

/-- Modelled from the spec: `getMigrationString(da)`, the per-dashboard
migration-derived title fragment (§4.3, §6). -/
def getMigrationString (da : dashAlert) : String :=
  da.dashboardUID ++ " - " ++ toString da.panelId

/-- Modelled from the spec: `m.createFolder(orgId, title)` (§3 Folder, §6).
Creates a new folder row carrying the reserved creator marker and a fresh,
non-empty UID, and appends it to the dashboard table. -/
def createFolder (st : MigState) (orgId : Int) (title : String) :
    dashboard × MigState :=
  let f : dashboard :=
    { id := st.nextFolderId, orgId := orgId,
      uid := "folder-" ++ toString st.nextFolderId, title := title,
      folderId := 0, hasAcl := false, isFolder := true,
      createdBy := FOLDER_CREATED_BY }
  (f, { st with dashboards := st.dashboards ++ [f],
                nextFolderId := st.nextFolderId + 1 })

/-- Modelled from the spec: `m.getACL(orgId, dashboardId)` (§4.3): the
dashboard's effective ACL, explicit entries plus entries inherited from its
parent folder. -/
def getACL (st : MigState) (orgId dashId : Int) : List aclRow :=
  let explicit := st.acl.filter (fun a => a.orgId == orgId && a.dashboardId == dashId)
  let inherited :=
    match st.dashboards.find? (fun d => d.orgId == orgId && d.id == dashId) with
    | some d =>
      if d.folderId > 0 then
        st.acl.filter (fun a => a.orgId == orgId && a.dashboardId == d.folderId)
      else []
    | none => []
  explicit ++ inherited

/-- Modelled from the spec: `m.setACL(orgId, folderId, perms)` (§4.3): writes
the given grants onto the folder, preserving principal and permission. -/
def setACL (st : MigState) (orgId folderId : Int) (perms : List aclRow) : MigState :=
  let retargeted := perms.map (fun a => { a with orgId := orgId, dashboardId := folderId })
  { st with acl := st.acl ++ retargeted }

/-- Modelled from the spec: `m.getOrCreateGeneralFolder(orgId)` (§4.3 step 3):
returns the organisation's "General Alerting" folder if one exists, creating
it otherwise; no explicit ACL is granted. -/
def getOrCreateGeneralFolder (st : MigState) (orgId : Int) :
    dashboard × MigState :=
  match st.dashboards.find?
      (fun d => d.orgId == orgId && d.title == GENERAL_FOLDER && d.isFolder) with
  | some f => (f, st)
  | none => createFolder st orgId GENERAL_FOLDER

/-- The deterministic UID generated for the rule made from one legacy alert. -/
def ruleUID (da : dashAlert) : String := "uid-" ++ toString da.id

/-- Modelled from the spec: `m.makeAlertRule(cond, da, folderUID)` (§4.4):
title and rule group default to the legacy alert's name; a generated UID is
attached before persistence. -/
def makeAlertRule (c : condition) (da : dashAlert) (folderUID : String) : alertRule :=
  { orgId := da.orgId, uid := ruleUID da, title := da.name,
    ruleGroup := da.name, namespaceUid := folderUID, cond := c }

/-- The store interactions of `migration.Exec`, recorded as a trace. -/
inductive Action where
  | createFolderAct (orgId : Int) (title : String)
  | getAclAct (orgId : Int) (dashId : Int)
  | setAclAct (orgId : Int) (folderId : Int)
  | getOrCreateGeneralAct (orgId : Int)
  | insertRuleFail (r : alertRule)
  | insertRule (r : alertRule)
  | insertVersion (v : alertRuleVersion)
deriving Repr, DecidableEq

/-- Whether a trace entry is an `alert_rule_version` insert. -/
def Action.isInsertVersion : Action → Bool
  | .insertVersion _ => true
  | _ => false

/-- `m.sess.Where("org_id=? AND uid=?", ...).Get(&dash)` (line 107). -/
def getDashboard (st : MigState) (orgId : Int) (uid : String) : Option dashboard :=
  st.dashboards.find? (fun d => d.orgId == orgId && d.uid == uid)

/-- Lines 121-143 of `migration.Exec`: when `dash.FolderId > 0` the referenced
record is fetched by id and must exist and be a folder; both failures are
wrapped in a `MigrationError` carrying the alert id.  Otherwise the Go zero
value `dashboard{}` is kept. -/
def lookupFolder (st : MigState) (dash : dashboard) (alertId : Int) :
    Except ExecError dashboard :=
  if dash.folderId > 0 then
    match st.dashboards.find? (fun d => d.id == dash.folderId) with
    | none => .error (.migrationError ⟨alertId, .folderNotFound dash.folderId⟩)
    | some f =>
      if !f.isFolder then .error (.migrationError ⟨alertId, .notAFolder dash.folderId⟩)
      else .ok f
  else .ok dashboard.empty

/-- Lines 145-185 of `migration.Exec`: the switch choosing the destination
folder.  `dash.HasAcl` synthesizes a folder and copies the dashboard's
effective ACL onto it; else `dash.FolderId > 0` reuses the fetched folder
unchanged; else the per-organisation general folder is fetched or created. -/
def resolveFolder (st : MigState) (dash folder0 : dashboard) (da : dashAlert) :
    MigState × dashboard × List Action :=
  if dash.hasAcl then
    let c := createFolder st dash.orgId (DASHBOARD_FOLDER (getMigrationString da))
    let perms := getACL c.2 dash.orgId dash.id
    let st2 := setACL c.2 c.1.orgId c.1.id perms
    (st2, c.1,
      [.createFolderAct dash.orgId (DASHBOARD_FOLDER (getMigrationString da)),
       .getAclAct dash.orgId dash.id, .setAclAct c.1.orgId c.1.id])
  else if dash.folderId > 0 then
    (st, folder0, [])
  else
    let g := getOrCreateGeneralFolder st dash.orgId
    (g.2, g.1, [.getOrCreateGeneralAct dash.orgId])

/-- Uniqueness constraint of the `alert_rule` table: at most one rule per
(org, namespace, title). -/
def ruleConflicts (r : alertRule) (tbl : List alertRule) : Bool :=
  tbl.any (fun s => s.orgId == r.orgId && s.namespaceUid == r.namespaceUid
                    && s.title == r.title)

/-- `m.sess.Insert(rule)`: fails on a uniqueness-constraint violation,
otherwise appends the row. -/
def insertRule (st : MigState) (r : alertRule) : Except Err MigState :=
  if ruleConflicts r st.alertRules then .error Err.uniqueConstraint
  else .ok { st with alertRules := st.alertRules ++ [r] }

/-- `r.title + " " + r.uid` and likewise for the rule group: the retry
disambiguation of lines 201-202. -/
def suffixRule (r : alertRule) : alertRule :=
  { r with title := r.title ++ " " ++ r.uid,
           ruleGroup := r.ruleGroup ++ " " ++ r.uid }

/-- Lines 198-208 of `migration.Exec`: insert the rule; on failure retry
exactly once with title and rule group suffixed by the rule's UID; a second
failure escapes.  Returns the rule actually persisted. -/
def insertRuleWithRetry (st : MigState) (r : alertRule) :
    Except Err (MigState × alertRule × List Action) :=
  match insertRule st r with
  | .ok st' => .ok (st', r, [.insertRule r])
  | .error _ =>
    match insertRule st (suffixRule r) with
    | .ok st' => .ok (st', suffixRule r, [.insertRuleFail r, .insertRule (suffixRule r)])
    | .error e => .error e

/-- `m.sess.Insert(rule.makeVersion())` (line 211). -/
def insertVersion (st : MigState) (v : alertRuleVersion) : MigState :=
  { st with alertRuleVersions := st.alertRuleVersions ++ [v] }

/-- The dashboard UID `Exec` resolves for an alert (line 103): a Go map read,
yielding the zero value `""` when the key is absent. -/
def resolvedUID (dashIDMap : List ((Int × Int) × String)) (da : dashAlert) : String :=
  (lookup2 dashIDMap da.orgId da.dashboardId).getD ""

/-- `da.DashboardUID = dashIDMap[...]` (line 103). -/
def setUID (da : dashAlert) (u : String) : dashAlert := { da with dashboardUID := u }

/-- The per-alert body of the loop of `migration.Exec` (lines 97-215):
translate the condition (failure returned unwrapped), resolve the dashboard,
fetch and validate the parent folder, resolve the destination folder, reject
an empty folder UID, insert the rule with one retry, insert the version
snapshot.  On error no state is returned: the surrounding transaction rolls
everything back. -/
def processAlert (dsIDMap dashIDMap : List ((Int × Int) × String))
    (st : MigState) (da : dashAlert) : Except ExecError (MigState × List Action) :=
  match transConditions da.parsedSettings da.orgId dsIDMap with
  | .error e => .error (.raw e)
  | .ok newCond =>
    match getDashboard st da.orgId (resolvedUID dashIDMap da) with
    | none =>
      .error (.migrationError ⟨da.id, .dashboardNotFound (resolvedUID dashIDMap da) da.orgId⟩)
    | some dash =>
      match lookupFolder st dash da.id with
      | .error e => .error e
      | .ok folder0 =>
        if (resolveFolder st dash folder0 (setUID da (resolvedUID dashIDMap da))).2.1.uid
            = "" then
          .error (.migrationError ⟨da.id, .emptyFolderUid⟩)
        else
          match insertRuleWithRetry
              (resolveFolder st dash folder0 (setUID da (resolvedUID dashIDMap da))).1
              (makeAlertRule newCond (setUID da (resolvedUID dashIDMap da))
                (resolveFolder st dash folder0
                  (setUID da (resolvedUID dashIDMap da))).2.1.uid) with
          | .error e => .error (.raw e)
          | .ok (st3, rule, acts2) =>
            .ok (insertVersion st3 rule.makeVersion,
                 (resolveFolder st dash folder0 (setUID da (resolvedUID dashIDMap da))).2.2
                   ++ acts2 ++ [.insertVersion rule.makeVersion])

/-- The loop of `migration.Exec` over the slurped alerts: the first error
aborts the whole run. -/
def migrationExec (dsIDMap dashIDMap : List ((Int × Int) × String)) :
    MigState → List dashAlert → Except ExecError (MigState × List Action)
  | st, [] => .ok (st, [])
  | st, da :: rest =>
    match processAlert dsIDMap dashIDMap st da with
    | .error e => .error e
    | .ok (st', tr) =>
      match migrationExec dsIDMap dashIDMap st' rest with
      | .error e => .error e
      | .ok (st'', tr') => .ok (st'', tr ++ tr')

/-- The delete statements `rmMigration.Exec` issues, in source order. -/
inductive DeleteStmt where
  | alertRuleTable
  | alertRuleVersionTable
  | dashboardAclCreatedBy (marker : Int)
  | dashboardCreatedBy (marker : Int)
  | alertConfigurationTable
  | alertInstanceTable
deriving Repr, DecidableEq

/-- `rmMigration.Exec` (lines 228-259): six bulk deletes in source order —
`alert_rule`; `alert_rule_version`; `dashboard_acl` rows of dashboards whose
`created_by` equals the marker; `dashboard` rows with the marker;
`alert_configuration`; `alert_instance`.  Returns the resulting state and the
trace of issued statements. -/
def rmMigrationExec (st : MigState) : MigState × List DeleteStmt :=
  let createdIds :=
    (st.dashboards.filter (fun d => d.createdBy == FOLDER_CREATED_BY)).map
      (fun d => d.id)
  ({ st with
      alertRules := [],
      alertRuleVersions := [],
      acl := st.acl.filter (fun a => !createdIds.contains a.dashboardId),
      dashboards := st.dashboards.filter (fun d => !(d.createdBy == FOLDER_CREATED_BY)),
      alertConfigurations := [],
      alertInstances := [] },
   [.alertRuleTable, .alertRuleVersionTable,
    .dashboardAclCreatedBy FOLDER_CREATED_BY, .dashboardCreatedBy FOLDER_CREATED_BY,
    .alertConfigurationTable, .alertInstanceTable])

/-- Input context of `AddMigration`: the `UALERT_MIG` environment variable,
the migration log (its entry names, and whether reading it fails), and the
ng-alert feature toggle. -/
structure MigratorCtx where
  ualertEnv : String
  logEntries : List String
  logReadFails : Bool
  ngEnabled : Bool
deriving Repr, DecidableEq

/-- What kind of migration gets registered. -/
inductive MigKind where
  | forward
  | rollback
deriving Repr, DecidableEq

/-- The observable actions of `AddMigration`. -/
inductive MigratorAction where
  | readLog
  | exitFatal
  | clearEntry (name : String)
  | register (name : String) (kind : MigKind)
deriving Repr, DecidableEq

/-- `AddMigration(mg)` (lines 33-63): under the `"iDidBackup"` environment
acknowledgment, read the migration log (a read failure exits the process);
with the toggle on and no forward entry, clear the removal entry and register
the forward migration; with the toggle off and a forward entry present, clear
the forward entry and register the removal migration; otherwise do nothing
more.  Without the acknowledgment nothing happens at all. -/
def AddMigration (ctx : MigratorCtx) : List MigratorAction :=
  if ctx.ualertEnv == "iDidBackup" then
    if ctx.logReadFails then [.readLog, .exitFatal]
    else
      let migrationRun := ctx.logEntries.contains migTitle
      if ctx.ngEnabled && !migrationRun then
        [.readLog, .clearEntry rmMigTitle, .register migTitle .forward]
      else if !ctx.ngEnabled && migrationRun then
        [.readLog, .clearEntry migTitle, .register rmMigTitle .rollback]
      else [.readLog]
  else []

/-! ### Concrete fixtures used by witnesses and counterexamples -/

/-- An empty store. -/
def emptyState : MigState :=
  { dashboards := [], acl := [], alertRules := [], alertRuleVersions := [],
    alertConfigurations := [], alertInstances := [], nextFolderId := 100 }

/-- A legacy alert whose condition references datasource 5 of organisation 1. -/
def cexAlert : dashAlert :=
  { id := 7, orgId := 1, dashboardId := 10, panelId := 2, name := "cpu high",
    parsedSettings := { conditions := [{ datasourceId := 5, payload := "gt 80" }] },
    dashboardUID := "" }

/-! ### Helper lemmas -/

theorem migrationExec_cons_error {d1 d2 : List ((Int × Int) × String)}
    {st : MigState} {da : dashAlert} {rest : List dashAlert} {e : ExecError}
    (h : processAlert d1 d2 st da = .error e) :
    migrationExec d1 d2 st (da :: rest) = .error e := by
  simp [migrationExec, h]

theorem migrationExec_append_abort {d1 d2 : List ((Int × Int) × String)}
    {pre : List dashAlert} {st st' : MigState} {tr : List Action}
    {da : dashAlert} {post : List dashAlert} {e : ExecError}
    (h1 : migrationExec d1 d2 st pre = .ok (st', tr))
    (h2 : processAlert d1 d2 st' da = .error e) :
    migrationExec d1 d2 st (pre ++ da :: post) = .error e := by
  induction pre generalizing st tr with
  | nil =>
    simp [migrationExec] at h1
    have h2' : processAlert d1 d2 st da = .error e := h1.1 ▸ h2
    have habort : migrationExec d1 d2 st (da :: post) = .error e :=
      migrationExec_cons_error h2'
    simpa using habort
  | cons a rest ih =>
    simp only [migrationExec] at h1 ⊢
    cases ha : processAlert d1 d2 st a with
    | error e' => simp [ha] at h1
    | ok p =>
      simp only [ha] at h1 ⊢
      cases hr : migrationExec d1 d2 p.1 rest with
      | error e' => simp [hr] at h1
      | ok q =>
        simp only [hr] at h1
        cases h1
        simp [ih hr]

theorem getOrCreateGeneralFolder_of_find {st : MigState} {o : Int} {f : dashboard}
    (hf : st.dashboards.find?
      (fun d => d.orgId == o && d.title == GENERAL_FOLDER && d.isFolder) = some f) :
    getOrCreateGeneralFolder st o = (f, st) := by
  rw [getOrCreateGeneralFolder, hf]

theorem getOrCreateGeneralFolder_of_none {st : MigState} {o : Int}
    (hf : st.dashboards.find?
      (fun d => d.orgId == o && d.title == GENERAL_FOLDER && d.isFolder) = none) :
    getOrCreateGeneralFolder st o = createFolder st o GENERAL_FOLDER := by
  rw [getOrCreateGeneralFolder, hf]

theorem find_general_after_create {st : MigState} {o : Int}
    (hf : st.dashboards.find?
      (fun d => d.orgId == o && d.title == GENERAL_FOLDER && d.isFolder) = none) :
    (createFolder st o GENERAL_FOLDER).2.dashboards.find?
        (fun d => d.orgId == o && d.title == GENERAL_FOLDER && d.isFolder) =
      some (createFolder st o GENERAL_FOLDER).1 := by
  simp [createFolder, List.find?_append, hf]

theorem getOrCreateGeneralFolder_idem (st : MigState) (o : Int) :
    getOrCreateGeneralFolder (getOrCreateGeneralFolder st o).2 o =
      getOrCreateGeneralFolder st o := by
  rcases hf : st.dashboards.find?
      (fun d => d.orgId == o && d.title == GENERAL_FOLDER && d.isFolder) with _ | f
  · rw [getOrCreateGeneralFolder_of_none hf,
      getOrCreateGeneralFolder_of_find (find_general_after_create hf)]
  · rw [getOrCreateGeneralFolder_of_find hf,
      getOrCreateGeneralFolder_of_find hf]

theorem getOrCreateGeneralFolder_acl (st : MigState) (o : Int) :
    (getOrCreateGeneralFolder st o).2.acl = st.acl := by
  rcases hf : st.dashboards.find?
      (fun d => d.orgId == o && d.title == GENERAL_FOLDER && d.isFolder) with _ | f
  · rw [getOrCreateGeneralFolder_of_none hf]; rfl
  · rw [getOrCreateGeneralFolder_of_find hf]

theorem getOrCreateGeneralFolder_rules (st : MigState) (o : Int) :
    (getOrCreateGeneralFolder st o).2.alertRules = st.alertRules ∧
    (getOrCreateGeneralFolder st o).2.alertRuleVersions = st.alertRuleVersions := by
  rcases hf : st.dashboards.find?
      (fun d => d.orgId == o && d.title == GENERAL_FOLDER && d.isFolder) with _ | f
  · rw [getOrCreateGeneralFolder_of_none hf]; exact ⟨rfl, rfl⟩
  · rw [getOrCreateGeneralFolder_of_find hf]; exact ⟨rfl, rfl⟩

theorem resolveFolder_tables (st : MigState) (dash folder0 : dashboard)
    (da : dashAlert) :
    (resolveFolder st dash folder0 da).1.alertRules = st.alertRules ∧
    (resolveFolder st dash folder0 da).1.alertRuleVersions = st.alertRuleVersions ∧
    (resolveFolder st dash folder0 da).2.2.filter Action.isInsertVersion = [] := by
  unfold resolveFolder
  split
  · exact ⟨rfl, rfl, rfl⟩
  · split
    · exact ⟨rfl, rfl, rfl⟩
    · exact ⟨(getOrCreateGeneralFolder_rules st dash.orgId).1,
             (getOrCreateGeneralFolder_rules st dash.orgId).2, rfl⟩

theorem insertRuleWithRetry_ok_inv {st : MigState} {r : alertRule}
    {st' : MigState} {rule : alertRule} {acts : List Action}
    (h : insertRuleWithRetry st r = .ok (st', rule, acts)) :
    st'.alertRules = st.alertRules ++ [rule] ∧
    rule.namespaceUid = r.namespaceUid ∧
    st'.alertRuleVersions = st.alertRuleVersions ∧
    (acts = [Action.insertRule rule] ∨
     acts = [Action.insertRuleFail r, Action.insertRule (suffixRule r)] ∧
       rule = suffixRule r) := by
  cases h1 : ruleConflicts r st.alertRules with
  | false =>
    simp [insertRuleWithRetry, insertRule, h1] at h
    obtain ⟨hst, hr, hacts⟩ := h
    subst hr
    refine ⟨by rw [← hst], rfl, by rw [← hst], Or.inl hacts.symm⟩
  | true =>
    cases h2 : ruleConflicts (suffixRule r) st.alertRules with
    | false =>
      simp [insertRuleWithRetry, insertRule, h1, h2] at h
      obtain ⟨hst, hr, hacts⟩ := h
      subst hr
      exact ⟨by rw [← hst], by simp [suffixRule], by rw [← hst],
             Or.inr ⟨hacts.symm, rfl⟩⟩
    | true =>
      simp [insertRuleWithRetry, insertRule, h1, h2] at h

theorem processAlert_ok_inv {d1 d2 : List ((Int × Int) × String)} {st : MigState}
    {da : dashAlert} {st' : MigState} {tr : List Action}
    (h : processAlert d1 d2 st da = .ok (st', tr)) :
    ∃ rule pre,
      st'.alertRules = st.alertRules ++ [rule] ∧
      rule.namespaceUid ≠ "" ∧
      st'.alertRuleVersions = st.alertRuleVersions ++ [rule.makeVersion] ∧
      tr = pre ++ [Action.insertRule rule, Action.insertVersion rule.makeVersion] ∧
      pre.filter Action.isInsertVersion = [] := by
  unfold processAlert at h
  cases hc : transConditions da.parsedSettings da.orgId d1 with
  | error e => simp [hc] at h
  | ok c =>
  simp only [hc] at h
  cases hd : getDashboard st da.orgId (resolvedUID d2 da) with
  | none => simp [hd] at h
  | some dash =>
  simp only [hd] at h
  cases hlf : lookupFolder st dash da.id with
  | error e => simp [hlf] at h
  | ok folder0 =>
  simp only [hlf] at h
  cases hu : (resolveFolder st dash folder0 (setUID da (resolvedUID d2 da))).2.1.uid
      == "" with
  | true => simp [beq_iff_eq.mp hu] at h
  | false =>
  have hu' : ¬((resolveFolder st dash folder0 (setUID da (resolvedUID d2 da))).2.1.uid
      = "") := by
    intro hh
    simp [hh] at hu
  rw [if_neg hu'] at h
  cases hins : insertRuleWithRetry
      (resolveFolder st dash folder0 (setUID da (resolvedUID d2 da))).1
      (makeAlertRule c (setUID da (resolvedUID d2 da))
        (resolveFolder st dash folder0 (setUID da (resolvedUID d2 da))).2.1.uid) with
  | error e => simp [hins] at h
  | ok p =>
  obtain ⟨st3, rule, acts2⟩ := p
  simp only [hins] at h
  obtain ⟨hst', htr⟩ : insertVersion st3 rule.makeVersion = st' ∧
      (resolveFolder st dash folder0 (setUID da (resolvedUID d2 da))).2.2
        ++ acts2 ++ [Action.insertVersion rule.makeVersion] = tr := by
    cases h
    exact ⟨rfl, rfl⟩
  obtain ⟨hrules, hns, hvers, hacts⟩ := insertRuleWithRetry_ok_inv hins
  obtain ⟨hrt, hvt, hft⟩ := resolveFolder_tables st dash folder0
    (setUID da (resolvedUID d2 da))
  have hns' : rule.namespaceUid ≠ "" := by
    rw [hns]
    exact hu'
  have h1 : st'.alertRules = st.alertRules ++ [rule] := by
    rw [← hst']
    show st3.alertRules = st.alertRules ++ [rule]
    rw [hrules, hrt]
  have h3 : st'.alertRuleVersions = st.alertRuleVersions ++ [rule.makeVersion] := by
    rw [← hst']
    show st3.alertRuleVersions ++ [rule.makeVersion] =
      st.alertRuleVersions ++ [rule.makeVersion]
    rw [hvers, hvt]
  cases hacts with
  | inl ha =>
    refine ⟨rule,
      (resolveFolder st dash folder0 (setUID da (resolvedUID d2 da))).2.2,
      h1, hns', h3, ?_, hft⟩
    rw [← htr, ha]
    simp
  | inr ha =>
    refine ⟨rule,
      (resolveFolder st dash folder0 (setUID da (resolvedUID d2 da))).2.2
        ++ [Action.insertRuleFail (makeAlertRule c (setUID da (resolvedUID d2 da))
          (resolveFolder st dash folder0 (setUID da (resolvedUID d2 da))).2.1.uid)],
      h1, hns', h3, ?_, ?_⟩
    · rw [← htr, ha.1, ← ha.2]
      simp
    · rw [List.filter_append, hft]
      rfl

theorem lookupFolder_error_id {st : MigState} {dash : dashboard} {aid : Int}
    {ee : ExecError} (h : lookupFolder st dash aid = .error ee) :
    ∃ er, ee = .migrationError ⟨aid, er⟩ := by
  unfold lookupFolder at h
  by_cases hf : dash.folderId > 0
  · rw [if_pos hf] at h
    cases hfind : st.dashboards.find? (fun d => d.id == dash.folderId) with
    | none =>
      rw [hfind] at h
      exact ⟨Err.folderNotFound dash.folderId, by cases h; rfl⟩
    | some f =>
      rw [hfind] at h
      by_cases hisf : f.isFolder
      · simp [hisf] at h
      · simp only [hisf, Bool.not_false, if_true] at h
        exact ⟨Err.notAFolder dash.folderId, by cases h; rfl⟩
  · rw [if_neg hf] at h
    cases h

theorem migrationExec_rules_ns {d1 d2 : List ((Int × Int) × String)}
    {alerts : List dashAlert} {st st' : MigState} {tr : List Action}
    (h : migrationExec d1 d2 st alerts = .ok (st', tr)) :
    ∀ r ∈ st'.alertRules, r ∈ st.alertRules ∨ r.namespaceUid ≠ "" := by
  induction alerts generalizing st tr with
  | nil =>
    simp [migrationExec] at h
    intro r hr
    exact Or.inl (h.1 ▸ hr)
  | cons a rest ih =>
    simp only [migrationExec] at h
    cases ha : processAlert d1 d2 st a with
    | error e => simp [ha] at h
    | ok p =>
      simp only [ha] at h
      cases hrest : migrationExec d1 d2 p.1 rest with
      | error e => simp [hrest] at h
      | ok q =>
        simp only [hrest] at h
        cases h
        intro r hr
        rcases ih hrest r hr with hmem | hns
        · obtain ⟨rule, pre, h1, h2, _⟩ := processAlert_ok_inv ha
          rcases List.mem_append.mp (h1 ▸ hmem) with hl | hr'
          · exact Or.inl hl
          · rcases List.mem_singleton.mp hr' with rfl
            exact Or.inr h2
        · exact Or.inr hns

/-! ### Concrete fixtures for the forward migration -/

/-- A dashboard-id map sending (org 1, dashboard 10) to `"dash1"`. -/
def fxDashMap : List ((Int × Int) × String) := [((1, 10), "dash1")]

/-- A legacy alert of org 1 on dashboard 10 with no condition operands. -/
def fxAlert : dashAlert := ⟨1, 1, 10, 4, "alert A", ⟨[]⟩, ""⟩

/-- A store holding one root-level dashboard without ACL. -/
def fxState : MigState :=
  { dashboards := [⟨10, 1, "dash1", "My dash", 0, false, false, 0⟩],
    acl := [], alertRules := [], alertRuleVersions := [],
    alertConfigurations := [], alertInstances := [], nextFolderId := 100 }

/-- The rule the migration synthesizes for `fxAlert` in `fxState`. -/
def fxRule : alertRule := ⟨1, "uid-1", "alert A", "alert A", "folder-100", ⟨[]⟩⟩

/-- The state after migrating `fxAlert` in `fxState`: the general folder is
created and the rule and its version snapshot are inserted. -/
def fxStateOk : MigState :=
  { dashboards := [⟨10, 1, "dash1", "My dash", 0, false, false, 0⟩,
                   ⟨100, 1, "folder-100", "General Alerting", 0, false, true, -8⟩],
    acl := [], alertRules := [fxRule],
    alertRuleVersions := [fxRule.makeVersion],
    alertConfigurations := [], alertInstances := [], nextFolderId := 101 }

/-- The trace of migrating `fxAlert` in `fxState`. -/
def fxTraceOk : List Action :=
  [.getOrCreateGeneralAct 1, .insertRule fxRule, .insertVersion fxRule.makeVersion]

/-- A store in which dashboard 10 sits in folder 3 whose stored UID is the
empty string. -/
def fxEmptyUidState : MigState :=
  { dashboards := [⟨10, 1, "dash1", "My dash", 3, false, false, 0⟩,
                   ⟨3, 1, "", "Bad folder", 0, false, true, 0⟩],
    acl := [], alertRules := [], alertRuleVersions := [],
    alertConfigurations := [], alertInstances := [], nextFolderId := 100 }

/-- A store in which dashboard 10 references folder 3 but no record with id 3
exists. -/
def fxNoFolderState : MigState :=
  { dashboards := [⟨10, 1, "dash1", "My dash", 3, false, false, 0⟩],
    acl := [], alertRules := [], alertRuleVersions := [],
    alertConfigurations := [], alertInstances := [], nextFolderId := 100 }

/-- C5: the forward migration is registered exactly when the `UALERT_MIG`
environment variable is `"iDidBackup"`, the log read succeeds, the ng-alert
toggle is enabled and the migration log has no entry for the forward
migration name; hence a second invocation after a completed forward run (log
entry present, toggle still on) registers nothing at all; symmetrically the
removal migration is registered exactly when the flag is set, the log read
succeeds, the toggle is disabled and the forward entry exists. -/
theorem addMigration_trigger (ctx : MigratorCtx) :
    (MigratorAction.register migTitle MigKind.forward ∈ AddMigration ctx ↔
      ctx.ualertEnv = "iDidBackup" ∧ ctx.logReadFails = false ∧
      ctx.ngEnabled = true ∧ migTitle ∉ ctx.logEntries) ∧
    (ctx.ngEnabled = true → migTitle ∈ ctx.logEntries →
      ∀ n k, MigratorAction.register n k ∉ AddMigration ctx) ∧
    (MigratorAction.register rmMigTitle MigKind.rollback ∈ AddMigration ctx ↔
      ctx.ualertEnv = "iDidBackup" ∧ ctx.logReadFails = false ∧
      ctx.ngEnabled = false ∧ migTitle ∈ ctx.logEntries) := by
  have hne : migTitle ≠ rmMigTitle := by decide
  unfold AddMigration
  split
  · next henv =>
    rw [beq_iff_eq] at henv
    split
    · next hfail =>
      refine ⟨?_, ?_, ?_⟩
      · simp [hfail]
      · intro _ _ n k; simp
      · simp [hfail]
    · next hfail =>
      have hfail' : ctx.logReadFails = false := by
        cases h : ctx.logReadFails
        · rfl
        · exact absurd h hfail
      by_cases hng : ctx.ngEnabled = true
      · by_cases hrun : migTitle ∈ ctx.logEntries
        · have hcont : ctx.logEntries.contains migTitle = true := by
            simpa [List.elem_iff] using hrun
          refine ⟨?_, ?_, ?_⟩
          · simp [hng, hcont, hrun]
          · intro _ _ n k
            simp [hng, hcont, hrun]
          · simp [hng, hcont, hrun]
        · have hcont : ctx.logEntries.contains migTitle = false := by
            simpa [List.elem_iff] using hrun
          refine ⟨?_, ?_, ?_⟩
          · simp [hng, hcont, henv, hfail', hrun]
          · intro _ h; exact absurd h hrun
          · simp [hng, hcont, hrun, hne.symm]
      · have hng' : ctx.ngEnabled = false := by
          cases h : ctx.ngEnabled
          · rfl
          · exact absurd h hng
        by_cases hrun : migTitle ∈ ctx.logEntries
        · have hcont : ctx.logEntries.contains migTitle = true := by
            simpa [List.elem_iff] using hrun
          refine ⟨?_, ?_, ?_⟩
          · simp [hng', hcont, hrun, hne]
          · intro h; exact absurd hng' (by simp [h])
          · simp [hng', hcont, henv, hfail', hrun]
        · have hcont : ctx.logEntries.contains migTitle = false := by
            simpa [List.elem_iff] using hrun
          refine ⟨?_, ?_, ?_⟩
          · simp [hng', hcont, hrun]
          · intro h; exact absurd hng' (by simp [h])
          · simp [hng', hcont, hrun]
  · next henv =>
    rw [beq_iff_eq] at henv
    refine ⟨?_, ?_, ?_⟩
    · simp [henv]
    · intro _ _ n k; simp
    · simp [henv]

/-- Witness for C5: with the flag set, the toggle on and an empty log the
forward migration is registered; once the log records the forward run,
nothing is registered. -/
theorem addMigration_trigger_witness :
    MigratorAction.register migTitle MigKind.forward ∈
      AddMigration ⟨"iDidBackup", [], false, true⟩ ∧
    MigratorAction.register migTitle MigKind.forward ∉
      AddMigration ⟨"iDidBackup", [migTitle], false, true⟩ := by
  constructor
  · exact (addMigration_trigger ⟨"iDidBackup", [], false, true⟩).1.mpr
      ⟨rfl, rfl, rfl, by simp⟩
  · exact (addMigration_trigger ⟨"iDidBackup", [migTitle], false, true⟩).2.1
      rfl (by simp) migTitle MigKind.forward

/-- C10: in every flag/log combination other than the two trigger conditions
`AddMigration` registers nothing: with the environment variable not exactly
`"iDidBackup"` it does nothing at all (the log is not even read); with the
flag set, the toggle on and the forward entry present, or the toggle off and
the forward entry absent, it only reads the log. -/
theorem addMigration_no_op_cases (ctx : MigratorCtx) :
    (ctx.ualertEnv ≠ "iDidBackup" → AddMigration ctx = []) ∧
    (ctx.ualertEnv = "iDidBackup" → ctx.logReadFails = false →
      ctx.ngEnabled = true → migTitle ∈ ctx.logEntries →
      AddMigration ctx = [MigratorAction.readLog]) ∧
    (ctx.ualertEnv = "iDidBackup" → ctx.logReadFails = false →
      ctx.ngEnabled = false → migTitle ∉ ctx.logEntries →
      AddMigration ctx = [MigratorAction.readLog]) := by
  refine ⟨?_, ?_, ?_⟩
  · intro henv
    simp [AddMigration, henv]
  · intro henv hfail hng hrun
    have hcont : ctx.logEntries.contains migTitle = true := by
      simpa [List.elem_iff] using hrun
    simp [AddMigration, henv, hfail, hng, hcont, hrun]
  · intro henv hfail hng hrun
    have hcont : ctx.logEntries.contains migTitle = false := by
      simpa [List.elem_iff] using hrun
    simp [AddMigration, henv, hfail, hng, hcont, hrun]

/-- Witness for C10: a wrong flag value yields no action at all; flag set
with toggle on and the forward entry already logged yields only the log
read. -/
theorem addMigration_no_op_cases_witness :
    AddMigration ⟨"backupNotDone", [], false, true⟩ = [] ∧
    AddMigration ⟨"iDidBackup", [migTitle], false, true⟩ =
      [MigratorAction.readLog] := by
  constructor
  · exact (addMigration_no_op_cases ⟨"backupNotDone", [], false, true⟩).1
      (by decide)
  · exact (addMigration_no_op_cases ⟨"iDidBackup", [migTitle], false, true⟩).2.1
      rfl rfl rfl (by simp)

/-- C4 counterexample: `rmMigration.Exec` deletes `alert_rule` first and
`alert_rule_version` second, so the order claimed by the spec (versions
before rules) does not match the issued statements even on an empty store. -/
theorem rmMigration_order_counterexample :
    (rmMigrationExec emptyState).2 ≠
      [DeleteStmt.alertRuleVersionTable, DeleteStmt.alertRuleTable,
       DeleteStmt.dashboardAclCreatedBy FOLDER_CREATED_BY,
       DeleteStmt.dashboardCreatedBy FOLDER_CREATED_BY,
       DeleteStmt.alertConfigurationTable, DeleteStmt.alertInstanceTable] := by
  decide

/-- C4 (amended): the rollback migration issues its bulk deletes in this
fixed order: rules first, then rule versions, then ACL entries of synthesized
folders, then synthesized folders, then alert configuration records, then
alert instance records; each delete is unconditional over its table, filtered
only by the creator marker for the two folder-related tables. -/
theorem rmMigration_delete_order (st : MigState) :
    (rmMigrationExec st).2 =
      [DeleteStmt.alertRuleTable, DeleteStmt.alertRuleVersionTable,
       DeleteStmt.dashboardAclCreatedBy FOLDER_CREATED_BY,
       DeleteStmt.dashboardCreatedBy FOLDER_CREATED_BY,
       DeleteStmt.alertConfigurationTable, DeleteStmt.alertInstanceTable] ∧
    (rmMigrationExec st).1.alertRules = [] ∧
    (rmMigrationExec st).1.alertRuleVersions = [] ∧
    (rmMigrationExec st).1.alertConfigurations = [] ∧
    (rmMigrationExec st).1.alertInstances = [] ∧
    (rmMigrationExec st).1.acl = st.acl.filter (fun a =>
      !((st.dashboards.filter (fun d => d.createdBy == FOLDER_CREATED_BY)).map
          (fun d => d.id)).contains a.dashboardId) ∧
    (rmMigrationExec st).1.dashboards =
      st.dashboards.filter (fun d => !(d.createdBy == FOLDER_CREATED_BY)) :=
  ⟨rfl, rfl, rfl, rfl, rfl, rfl, rfl⟩

/-- C6: rollback removes exactly the dashboard rows carrying the reserved
creator marker, and exactly the ACL rows attached to such a row; every other
dashboard, folder and ACL row survives unchanged. -/
theorem rmMigration_frame (st : MigState) (d : dashboard) (a : aclRow) :
    (d ∈ (rmMigrationExec st).1.dashboards ↔
      d ∈ st.dashboards ∧ d.createdBy ≠ FOLDER_CREATED_BY) ∧
    (a ∈ (rmMigrationExec st).1.acl ↔
      a ∈ st.acl ∧ ∀ x ∈ st.dashboards,
        x.createdBy = FOLDER_CREATED_BY → x.id ≠ a.dashboardId) := by
  constructor
  · simp [rmMigrationExec, List.mem_filter]
  · simp only [rmMigrationExec, List.mem_filter, Bool.not_eq_true',
      List.contains_eq_any_beq, List.any_eq_false, List.mem_map,
      List.mem_filter]
    constructor
    · rintro ⟨ha, hnone⟩
      refine ⟨ha, ?_⟩
      intro x hx hcb hid
      have h := hnone x.id ⟨x, ⟨hx, by simp [hcb]⟩, rfl⟩
      rw [hid] at h
      simp at h
    · rintro ⟨ha, hall⟩
      refine ⟨ha, ?_⟩
      rintro y ⟨x, ⟨hx, hcb⟩, hid⟩
      have h := hall x hx (by simpa using hcb)
      subst hid
      simp [beq_iff_eq]
      exact fun hh => h hh.symm

/-- C1: the destination folder is chosen by this precedence.  With `hasAcl`
a folder named from the migration string is synthesized (appended to the
dashboard table) and the dashboard's effective ACL is copied onto it
verbatim; otherwise with `folderId > 0` the fetched parent folder is reused
with state untouched and no ACL copy; otherwise the per-organisation general
folder is fetched or created with no explicit ACL, and fetching-or-creating
is idempotent, so the folder is created at most once per organisation. -/
theorem folder_precedence (st : MigState) (dash folder0 : dashboard)
    (da : dashAlert) (o : Int) :
    (dash.hasAcl = true →
      (resolveFolder st dash folder0 da).2.1 =
        (createFolder st dash.orgId (DASHBOARD_FOLDER (getMigrationString da))).1 ∧
      (resolveFolder st dash folder0 da).1.dashboards =
        st.dashboards ++
          [(createFolder st dash.orgId (DASHBOARD_FOLDER (getMigrationString da))).1] ∧
      (resolveFolder st dash folder0 da).1.acl =
        st.acl ++ (getACL (createFolder st dash.orgId
            (DASHBOARD_FOLDER (getMigrationString da))).2 dash.orgId dash.id).map
          (fun a => { a with
            orgId := (createFolder st dash.orgId
              (DASHBOARD_FOLDER (getMigrationString da))).1.orgId,
            dashboardId := (createFolder st dash.orgId
              (DASHBOARD_FOLDER (getMigrationString da))).1.id })) ∧
    (dash.hasAcl = false → dash.folderId > 0 →
      resolveFolder st dash folder0 da = (st, folder0, [])) ∧
    (dash.hasAcl = false → ¬ dash.folderId > 0 →
      (resolveFolder st dash folder0 da).2.1 =
        (getOrCreateGeneralFolder st dash.orgId).1 ∧
      (resolveFolder st dash folder0 da).1 =
        (getOrCreateGeneralFolder st dash.orgId).2 ∧
      (resolveFolder st dash folder0 da).1.acl = st.acl) ∧
    (getOrCreateGeneralFolder (getOrCreateGeneralFolder st o).2 o =
      getOrCreateGeneralFolder st o) := by
  refine ⟨?_, ?_, ?_, getOrCreateGeneralFolder_idem st o⟩
  · intro h
    refine ⟨?_, ?_, ?_⟩ <;> simp [resolveFolder, h, setACL, createFolder]
  · intro h1 h2
    simp [resolveFolder, h1, h2]
  · intro h1 h2
    refine ⟨?_, ?_, ?_⟩ <;>
      simp [resolveFolder, h1, h2, getOrCreateGeneralFolder_acl]

/-- Witness for C1: a dashboard without ACL inside folder 3 reuses that
folder unchanged, and get-or-create of the general folder is idempotent on
the empty store. -/
theorem folder_precedence_witness :
    resolveFolder emptyState
        ⟨5, 1, "dash-uid", "my dash", 3, false, false, 0⟩
        ⟨3, 1, "folder-uid", "my folder", 0, false, true, 0⟩ cexAlert =
      (emptyState, ⟨3, 1, "folder-uid", "my folder", 0, false, true, 0⟩, []) ∧
    getOrCreateGeneralFolder (getOrCreateGeneralFolder emptyState 1).2 1 =
      getOrCreateGeneralFolder emptyState 1 := by
  constructor
  · exact (folder_precedence emptyState
      ⟨5, 1, "dash-uid", "my dash", 3, false, false, 0⟩
      ⟨3, 1, "folder-uid", "my folder", 0, false, true, 0⟩ cexAlert 1).2.1
      rfl (by decide)
  · exact (folder_precedence emptyState dashboard.empty dashboard.empty
      cexAlert 1).2.2.2

/-- C7: every legacy alert the forward migration successfully processes adds
exactly one rule and exactly one version snapshot of that rule (1:1), and in
the session trace the single version insert immediately follows the
successful rule insert. -/
theorem one_version_per_rule (d1 d2 : List ((Int × Int) × String))
    (st : MigState) (da : dashAlert) (st' : MigState) (tr : List Action)
    (h : processAlert d1 d2 st da = .ok (st', tr)) :
    ∃ rule pre,
      st'.alertRules = st.alertRules ++ [rule] ∧
      st'.alertRuleVersions = st.alertRuleVersions ++ [rule.makeVersion] ∧
      tr = pre ++ [Action.insertRule rule, Action.insertVersion rule.makeVersion] ∧
      tr.filter Action.isInsertVersion = [Action.insertVersion rule.makeVersion] := by
  obtain ⟨rule, pre, h1, h2, h3, h4, h5⟩ := processAlert_ok_inv h
  refine ⟨rule, pre, h1, h3, h4, ?_⟩
  rw [h4, List.filter_append, h5]
  rfl

/-- Witness for C7: migrating `fxAlert` in `fxState` grows the version table
from zero to one entry. -/
theorem one_version_per_rule_witness :
    fxStateOk.alertRuleVersions.length = fxState.alertRuleVersions.length + 1 := by
  obtain ⟨rule, pre, h1, h2, h3, h4⟩ :=
    one_version_per_rule [] fxDashMap fxState fxAlert fxStateOk fxTraceOk rfl
  rw [h2]
  simp

/-- C8: folder resolution yielding an empty folder UID is fatal for the
alert, reported as a MigrationError carrying the alert's id (no state, hence
no rule, survives the abort), and every rule a successful run adds to the
store carries a non-empty folder UID. -/
theorem empty_folder_uid_fatal (d1 d2 : List ((Int × Int) × String))
    (st : MigState) (da : dashAlert) (dash folder0 : dashboard) (c : condition)
    (alerts : List dashAlert) (st' : MigState) (tr : List Action) :
    (transConditions da.parsedSettings da.orgId d1 = .ok c →
      getDashboard st da.orgId (resolvedUID d2 da) = some dash →
      lookupFolder st dash da.id = .ok folder0 →
      (resolveFolder st dash folder0 (setUID da (resolvedUID d2 da))).2.1.uid = "" →
      processAlert d1 d2 st da =
        .error (.migrationError ⟨da.id, Err.emptyFolderUid⟩)) ∧
    (migrationExec d1 d2 st alerts = .ok (st', tr) →
      ∀ r ∈ st'.alertRules, r ∈ st.alertRules ∨ r.namespaceUid ≠ "") := by
  constructor
  · intro hc hd hlf hu
    unfold processAlert
    simp only [hc, hd, hlf]
    rw [if_pos hu]
  · exact migrationExec_rules_ns

/-- Witness for C8: in `fxEmptyUidState` the referenced folder's UID is the
empty string and the alert fails with the empty-identifier MigrationError;
the rule synthesized in the successful `fxState` run has a non-empty folder
UID. -/
theorem empty_folder_uid_fatal_witness :
    processAlert [] fxDashMap fxEmptyUidState fxAlert =
      .error (.migrationError ⟨1, Err.emptyFolderUid⟩) ∧
    (fxRule ∈ fxState.alertRules ∨ fxRule.namespaceUid ≠ "") := by
  constructor
  · exact (empty_folder_uid_fatal [] fxDashMap fxEmptyUidState fxAlert
      ⟨10, 1, "dash1", "My dash", 3, false, false, 0⟩
      ⟨3, 1, "", "Bad folder", 0, false, true, 0⟩ ⟨[]⟩ [] emptyState []).1
      rfl rfl rfl rfl
  · exact (empty_folder_uid_fatal [] fxDashMap fxState fxAlert
      dashboard.empty dashboard.empty ⟨[]⟩ [fxAlert] fxStateOk fxTraceOk).2
      rfl fxRule (by simp [fxStateOk])

/-- C9: once the alert's dashboard is resolved and has `folderId > 0`, a
missing folder record, or a record that is not a folder, aborts the whole
run with a MigrationError carrying the alert's id. -/
theorem folder_reference_validated (d1 d2 : List ((Int × Int) × String))
    (st : MigState) (da : dashAlert) (dash f : dashboard) (c : condition)
    (rest : List dashAlert) :
    (transConditions da.parsedSettings da.orgId d1 = .ok c →
      getDashboard st da.orgId (resolvedUID d2 da) = some dash →
      dash.folderId > 0 →
      st.dashboards.find? (fun d => d.id == dash.folderId) = none →
      migrationExec d1 d2 st (da :: rest) =
        .error (.migrationError ⟨da.id, Err.folderNotFound dash.folderId⟩)) ∧
    (transConditions da.parsedSettings da.orgId d1 = .ok c →
      getDashboard st da.orgId (resolvedUID d2 da) = some dash →
      dash.folderId > 0 →
      st.dashboards.find? (fun d => d.id == dash.folderId) = some f →
      f.isFolder = false →
      migrationExec d1 d2 st (da :: rest) =
        .error (.migrationError ⟨da.id, Err.notAFolder dash.folderId⟩)) := by
  constructor
  · intro hc hd hfp hfind
    apply migrationExec_cons_error
    unfold processAlert
    rw [hc, hd]
    have hlf : lookupFolder st dash da.id =
        .error (.migrationError ⟨da.id, Err.folderNotFound dash.folderId⟩) := by
      unfold lookupFolder
      rw [if_pos hfp, hfind]
    simp only [hlf]
  · intro hc hd hfp hfind hisf
    apply migrationExec_cons_error
    unfold processAlert
    rw [hc, hd]
    have hlf : lookupFolder st dash da.id =
        .error (.migrationError ⟨da.id, Err.notAFolder dash.folderId⟩) := by
      unfold lookupFolder
      rw [if_pos hfp, hfind]
      simp [hisf]
    simp only [hlf]

/-- Witness for C9: in `fxNoFolderState` dashboard 10 references folder 3,
which does not exist, so the run aborts with the folder-not-found
MigrationError for alert 1. -/
theorem folder_reference_validated_witness :
    migrationExec [] fxDashMap fxNoFolderState [fxAlert] =
      .error (.migrationError ⟨1, Err.folderNotFound 3⟩) := by
  exact (folder_reference_validated [] fxDashMap fxNoFolderState fxAlert
    ⟨10, 1, "dash1", "My dash", 3, false, false, 0⟩ dashboard.empty ⟨[]⟩ []).1
    rfl rfl (by decide) rfl

/-- C2 counterexample: in an empty datasource map, migrating `cexAlert`
(whose condition references datasource 5 of org 1) aborts the whole run, but
the returned error is the raw translation error, not a MigrationError
carrying the alert's id. -/
theorem migration_error_wrap_counterexample :
    migrationExec [] [] emptyState [cexAlert] =
      .error (.raw (Err.unresolvedDatasource 1 5)) ∧
    (ExecError.raw (Err.unresolvedDatasource 1 5)).isMigrationError = false :=
  ⟨rfl, rfl⟩

/-- C2 (amended): fatal per-alert failures of dashboard lookup, folder
lookup/validation and the empty-folder-identifier check are wrapped in a
MigrationError carrying the failing alert's id, with the underlying cause
retrievable via unwrap, and any per-alert failure aborts the entire run; but
condition-translation failures (an unresolved datasource id in particular)
and rule-insert failures are returned unwrapped, without the alert id. -/
theorem migration_error_wrapping (d1 d2 : List ((Int × Int) × String))
    (st st' : MigState) (da : dashAlert) (m : MigrationError) (e : Err)
    (pre post : List dashAlert) (tr : List Action) (ee : ExecError) :
    (processAlert d1 d2 st da = .error (.migrationError m) → m.alertId = da.id) ∧
    (MigrationError.unwrap ⟨da.id, e⟩ = e) ∧
    (transConditions da.parsedSettings da.orgId d1 = .error e →
      processAlert d1 d2 st da = .error (.raw e)) ∧
    (migrationExec d1 d2 st pre = .ok (st', tr) →
      processAlert d1 d2 st' da = .error ee →
      migrationExec d1 d2 st (pre ++ da :: post) = .error ee) := by
  refine ⟨?_, rfl, ?_, migrationExec_append_abort⟩
  · intro h
    unfold processAlert at h
    cases hc : transConditions da.parsedSettings da.orgId d1 with
    | error e' => simp [hc] at h
    | ok c =>
    simp only [hc] at h
    cases hd : getDashboard st da.orgId (resolvedUID d2 da) with
    | none =>
      simp only [hd] at h
      cases h
      rfl
    | some dash =>
    simp only [hd] at h
    cases hlf : lookupFolder st dash da.id with
    | error ee' =>
      simp only [hlf] at h
      obtain ⟨er, her⟩ := lookupFolder_error_id hlf
      simp only [Except.error.injEq] at h
      have hm : ExecError.migrationError m = .migrationError ⟨da.id, er⟩ :=
        h.symm.trans her
      cases hm
      rfl
    | ok folder0 =>
    simp only [hlf] at h
    by_cases hu : (resolveFolder st dash folder0 (setUID da (resolvedUID d2 da))).2.1.uid
        = ""
    · rw [if_pos hu] at h
      cases h
      rfl
    · rw [if_neg hu] at h
      cases hins : insertRuleWithRetry
          (resolveFolder st dash folder0 (setUID da (resolvedUID d2 da))).1
          (makeAlertRule c (setUID da (resolvedUID d2 da))
            (resolveFolder st dash folder0 (setUID da (resolvedUID d2 da))).2.1.uid) with
      | error e' => simp [hins] at h
      | ok p =>
        obtain ⟨st3, rule, acts2⟩ := p
        simp [hins] at h
  · intro he
    unfold processAlert
    simp only [he]

/-- Witness for C2 (amended): the empty-folder failure carries the failing
alert's id 1; the unresolved-datasource failure is returned raw and aborts
the one-alert run. -/
theorem migration_error_wrapping_witness :
    (MigrationError.mk 1 Err.emptyFolderUid).alertId = 1 ∧
    processAlert [] [] emptyState cexAlert =
      .error (.raw (Err.unresolvedDatasource 1 5)) ∧
    migrationExec [] [] emptyState ([] ++ cexAlert :: []) =
      .error (.raw (Err.unresolvedDatasource 1 5)) := by
  refine ⟨?_, ?_, ?_⟩
  · exact (migration_error_wrapping [] fxDashMap fxEmptyUidState emptyState
      fxAlert ⟨1, Err.emptyFolderUid⟩ Err.emptyFolderUid [] [] []
      (.raw Err.uniqueConstraint)).1 rfl
  · exact (migration_error_wrapping [] [] emptyState emptyState cexAlert
      ⟨0, Err.emptyFolderUid⟩ (Err.unresolvedDatasource 1 5) [] [] []
      (.raw Err.uniqueConstraint)).2.2.1 rfl
  · exact (migration_error_wrapping [] [] emptyState emptyState cexAlert
      ⟨0, Err.emptyFolderUid⟩ (Err.unresolvedDatasource 1 5) [] [] []
      (.raw (Err.unresolvedDatasource 1 5))).2.2.2 rfl rfl

/-- C3: a rule insert failing the uniqueness constraint is retried exactly
once, with title and rule group each suffixed by the rule's generated UID;
an insert succeeding first time is never retried; if the retry also fails
the error escapes and a failing alert aborts the whole run. -/
theorem insert_retry_once (st : MigState) (r : alertRule)
    (d1 d2 : List ((Int × Int) × String)) (st0 : MigState) (da : dashAlert)
    (rest : List dashAlert) (ee : ExecError) :
    (ruleConflicts r st.alertRules = false →
      insertRuleWithRetry st r =
        .ok ({ st with alertRules := st.alertRules ++ [r] }, r,
             [Action.insertRule r])) ∧
    (ruleConflicts r st.alertRules = true →
      (suffixRule r).title = r.title ++ " " ++ r.uid ∧
      (suffixRule r).ruleGroup = r.ruleGroup ++ " " ++ r.uid ∧
      (ruleConflicts (suffixRule r) st.alertRules = false →
        insertRuleWithRetry st r =
          .ok ({ st with alertRules := st.alertRules ++ [suffixRule r] },
               suffixRule r,
               [Action.insertRuleFail r, Action.insertRule (suffixRule r)])) ∧
      (ruleConflicts (suffixRule r) st.alertRules = true →
        insertRuleWithRetry st r = .error Err.uniqueConstraint)) ∧
    (processAlert d1 d2 st0 da = .error ee →
      migrationExec d1 d2 st0 (da :: rest) = .error ee) := by
  refine ⟨?_, ?_, migrationExec_cons_error⟩
  · intro h1
    simp [insertRuleWithRetry, insertRule, h1]
  · intro h1
    refine ⟨rfl, rfl, ?_, ?_⟩
    · intro h2
      simp [insertRuleWithRetry, insertRule, h1, h2]
    · intro h2
      simp [insertRuleWithRetry, insertRule, h1, h2]

/-- A store already holding a rule with the same organisation, folder and
title as `fxRule`. -/
def fxConflictState : MigState :=
  { dashboards := [], acl := [],
    alertRules := [⟨1, "uid-0", "alert A", "alert A", "folder-100", ⟨[]⟩⟩],
    alertRuleVersions := [], alertConfigurations := [], alertInstances := [],
    nextFolderId := 100 }

/-- Witness for C3: inserting `fxRule` into `fxConflictState` hits the
uniqueness constraint and succeeds on the single retry with the UID-suffixed
title and group. -/
theorem insert_retry_once_witness :
    insertRuleWithRetry fxConflictState fxRule =
      .ok ({ fxConflictState with
              alertRules := fxConflictState.alertRules ++ [suffixRule fxRule] },
           suffixRule fxRule,
           [Action.insertRuleFail fxRule, Action.insertRule (suffixRule fxRule)]) := by
  exact ((insert_retry_once fxConflictState fxRule [] [] emptyState fxAlert []
    (.raw Err.uniqueConstraint)).2.1 (by decide)).2.2.1 (by decide)

end Ualert
